import Mathlib

/-!
# Verification of the mongoengine field layer (`src/mongoengine/fields.py`)

A shallow embedding of the field-type layer of the object-document mapper:
scalar fields (`StringField`, `IntField`, `FloatField`, `BooleanField`,
`DateTimeField`), `ListField`, and `ReferenceField`, together with the parts
of their behaviour the specification speaks about: `to_python` (normalize),
`validate`, `to_mongo` (storage encoding) and the lazy dereferencing
descriptor `ReferenceField.__get__`.

Python runtime values handled by the scalar/list fields are modelled by
`PyValue`.  Python `float` is modelled by `ℚ`: the field layer only ever
compares floats (`<`, `>`, `==`), and those comparisons agree with IEEE
comparisons on finite values.  Python `int` and `long` are collapsed into one
unbounded-integer constructor, as in Python's numeric tower.  Python `list`
and `tuple` are collapsed into one sequence constructor (the code treats them
identically: `isinstance(value, (list, tuple))`).
-/

/-- A Python runtime value, as far as the field layer inspects one. -/
inductive PyValue where
  | none
  | bool (b : Bool)
  | int (n : Int)
  | float (q : ℚ)
  | str (s : String)
  | datetime (t : Int)
  | list (items : List PyValue)

/-- The failure kinds the field layer can raise: Python `AssertionError`
(from the `assert isinstance(...)` lines), `ValueError`/`TypeError` (from the
built-in coercions `int()`/`float()`), and the library's `ValidationError`
carrying a message. -/
inductive PyErr where
  | assertionError
  | valueError
  | typeError
  | validationError (msg : String)
deriving DecidableEq, Repr

/-! ## Python built-in coercions used by `to_python`

These model the documented behaviour of the CPython built-ins the source
calls (`unicode`, `int`, `float`, `bool`).  Exotic inputs that the claims
never touch (byte strings needing a codec, exponent/`inf`/`nan` float
literals) are outside the model. -/

/-- `unicode(value)`: total textual rendering. -/
def pyUnicode : PyValue → String
  | .none => "None"
  | .bool b => if b then "True" else "False"
  | .int n => toString n
  | .float q => toString q
  | .str s => s
  | .datetime t => toString t
  | .list _ => "[...]"

/-- Truncation toward zero, the rounding used by Python `int(float)`. -/
def ratTrunc (q : ℚ) : Int :=
  if q < 0 then -Int.floor (-q) else Int.floor q

/-- Surrounding-whitespace stripping, as Python `int(str)`/`float(str)`
apply before parsing. -/
def stripChars (cs : List Char) : List Char :=
  ((cs.dropWhile Char.isWhitespace).reverse.dropWhile Char.isWhitespace).reverse

/-- Accumulate a digit sequence into a natural number (0 for the empty
sequence). -/
def digitsVal (cs : List Char) : Nat :=
  cs.foldl (fun a c => a * 10 + (c.toNat - 48)) 0

/-- Strip an optional leading sign, returning whether it was negative. -/
def splitSign : List Char → Bool × List Char
  | '-' :: rest => (true, rest)
  | '+' :: rest => (false, rest)
  | cs => (false, cs)

/-- Split a character sequence at the first decimal point, if any. -/
def splitDot : List Char → List Char × Option (List Char)
  | [] => ([], Option.none)
  | '.' :: rest => ([], Option.some rest)
  | c :: rest =>
      let (w, fr) := splitDot rest
      (c :: w, fr)

/-- Decimal-string parsing as accepted by Python `int(str)`:
optional surrounding whitespace, optional sign, then digits. -/
def pyParseInt? (s : String) : Option Int :=
  let (neg, body) := splitSign (stripChars s.data)
  if body.length > 0 ∧ body.all Char.isDigit then
    Option.some
      (if neg then -(digitsVal body : Int) else (digitsVal body : Int))
  else Option.none

/-- Decimal-string parsing as accepted by Python `float(str)` (without
exponent/`inf`/`nan` forms): optional sign, digits, optional point and
fraction digits, at least one digit overall. -/
def pyParseFloat? (s : String) : Option ℚ :=
  let (neg, body) := splitSign (stripChars s.data)
  let mag? : Option ℚ :=
    match splitDot body with
    | (w, Option.none) =>
        if w.length > 0 ∧ w.all Char.isDigit then
          Option.some ((digitsVal w : ℚ))
        else Option.none
    | (w, Option.some fr) =>
        if (w.length > 0 ∨ fr.length > 0) ∧ w.all Char.isDigit ∧
            fr.all Char.isDigit ∧ fr.all (fun c => decide (c ≠ '.')) then
          Option.some ((digitsVal w : ℚ) + (digitsVal fr : ℚ) / (10 ^ fr.length : ℚ))
        else Option.none
  mag?.map (fun q => if neg then -q else q)

/-- Python `int(value)`: succeeds on numbers and numeric strings, raises
`ValueError` on non-numeric strings and `TypeError` on non-numeric kinds. -/
def pyInt : PyValue → Except PyErr Int
  | .int n => .ok n
  | .bool b => .ok (if b then 1 else 0)
  | .float q => .ok (ratTrunc q)
  | .str s =>
      match pyParseInt? s with
      | Option.some n => .ok n
      | Option.none => .error .valueError
  | .none => .error .typeError
  | .datetime _ => .error .typeError
  | .list _ => .error .typeError

/-- Python `float(value)`. -/
def pyFloat : PyValue → Except PyErr ℚ
  | .float q => .ok q
  | .int n => .ok (n : ℚ)
  | .bool b => .ok (if b then 1 else 0)
  | .str s =>
      match pyParseFloat? s with
      | Option.some q => .ok q
      | Option.none => .error .valueError
  | .none => .error .typeError
  | .datetime _ => .error .typeError
  | .list _ => .error .typeError

/-- Python `bool(value)`: total truthiness coercion. -/
def pyBool : PyValue → Bool
  | .none => false
  | .bool b => b
  | .int n => if n = 0 then false else true
  | .float q => if q = 0 then false else true
  | .str s => if s = "" then false else true
  | .datetime _ => true
  | .list items => if items.isEmpty then false else true

/-! ## Python kind checks (`isinstance`)

Python's `bool` is a subclass of `int`, so `isinstance(True, (int, long))`
holds; `isinstance(True, float)` does not. -/

/-- `isinstance(value, (str, unicode))`. -/
def isStrKind : PyValue → Bool
  | .str _ => true
  | _ => false

/-- `isinstance(value, (int, long))`; includes `bool` (a Python `int` subclass). -/
def isIntKind : PyValue → Bool
  | .int _ => true
  | .bool _ => true
  | _ => false

/-- `isinstance(value, float)`. -/
def isFloatKind : PyValue → Bool
  | .float _ => true
  | _ => false

/-- `isinstance(value, bool)`. -/
def isBoolKind : PyValue → Bool
  | .bool _ => true
  | _ => false

/-- `isinstance(value, datetime.datetime)`. -/
def isDatetimeKind : PyValue → Bool
  | .datetime _ => true
  | _ => false

/-- The integer carried by an `int`-kind value (`True` counts as 1). -/
def intVal : PyValue → Int
  | .int n => n
  | .bool b => if b then 1 else 0
  | _ => 0

/-- The rational carried by a numeric value, if any (used for Python `==`,
which equates `1`, `1.0` and `True`). -/
def asRat? : PyValue → Option ℚ
  | .int n => Option.some (n : ℚ)
  | .bool b => Option.some (if b then 1 else 0)
  | .float q => Option.some q
  | _ => Option.none

/-- Python `==` on the values the field layer handles: numeric kinds compare
by value across kinds, other kinds compare structurally. -/
def pyEq : PyValue → PyValue → Bool
  | .str a, .str b => a == b
  | .none, .none => true
  | .datetime a, .datetime b => a == b
  | .list [], .list [] => true
  | .list (a :: as), .list (b :: bs) => pyEq a b && pyEq (.list as) (.list bs)
  | a, b =>
      match asRat? a, asRat? b with
      | Option.some x, Option.some y => decide (x = y)
      | _, _ => false

/-! ## Scalar fields (`fields.py` lines 15-101) -/

/-- `StringField(regex=None, max_length=None)`.  The compiled pattern
`self.regex = re.compile(regex)` is modelled by its start-anchored match
predicate: `regex.match(value) is not None` (Python's `re.match` matches at
the beginning of the string). -/
structure StringField where
  regex : Option (String → Bool)
  max_length : Option Nat

/-- `StringField.to_python`: `return unicode(value)`. -/
def StringField.to_python (_f : StringField) (value : PyValue) : Except PyErr PyValue :=
  .ok (.str (pyUnicode value))

/-- `StringField.validate`: `assert isinstance(value, (str, unicode))`, then
the max-length check, then the regex check. -/
def StringField.validate (f : StringField) (value : PyValue) : Except PyErr Unit :=
  match value with
  | .str s =>
      if (match f.max_length with
          | Option.some m => decide (s.length > m)
          | Option.none => false) then
        .error (.validationError "String value is too long")
      else if (match f.regex with
          | Option.some matchAtStart => !matchAtStart s
          | Option.none => false) then
        .error (.validationError "String value did not match validation regex")
      else
        .ok ()
  | _ => .error .assertionError

/-- `IntField(min_value=None, max_value=None)`. -/
structure IntField where
  min_value : Option Int
  max_value : Option Int

/-- `IntField.to_python`: `return int(value)`. -/
def IntField.to_python (_f : IntField) (value : PyValue) : Except PyErr PyValue :=
  (pyInt value).map PyValue.int

/-- `IntField.validate`: `assert isinstance(value, (int, long))`, then the
min check, then the max check. -/
def IntField.validate (f : IntField) (value : PyValue) : Except PyErr Unit :=
  if isIntKind value then
    let n := intVal value
    if (match f.min_value with
        | Option.some m => decide (n < m)
        | Option.none => false) then
      .error (.validationError "Integer value is too small")
    else if (match f.max_value with
        | Option.some m => decide (n > m)
        | Option.none => false) then
      .error (.validationError "Integer value is too large")
    else
      .ok ()
  else .error .assertionError

/-- `FloatField(min_value=None, max_value=None)`. -/
structure FloatField where
  min_value : Option ℚ
  max_value : Option ℚ

/-- `FloatField.to_python`: `return float(value)`. -/
def FloatField.to_python (_f : FloatField) (value : PyValue) : Except PyErr PyValue :=
  (pyFloat value).map PyValue.float

/-- `FloatField.validate`: `assert isinstance(value, float)`, then the min
check, then the max check. -/
def FloatField.validate (f : FloatField) (value : PyValue) : Except PyErr Unit :=
  match value with
  | .float q =>
      if (match f.min_value with
          | Option.some m => decide (q < m)
          | Option.none => false) then
        .error (.validationError "Float value is too small")
      else if (match f.max_value with
          | Option.some m => decide (q > m)
          | Option.none => false) then
        .error (.validationError "Float value is too large")
      else
        .ok ()
  | _ => .error .assertionError

/-- `BooleanField.to_python`: `return bool(value)`. -/
def BooleanField.to_python (value : PyValue) : Except PyErr PyValue :=
  .ok (.bool (pyBool value))

/-- `BooleanField.validate`: `assert isinstance(value, bool)`. -/
def BooleanField.validate (value : PyValue) : Except PyErr Unit :=
  if isBoolKind value then .ok () else .error .assertionError

/-- `DateTimeField.validate`: `assert isinstance(value, datetime.datetime)`. -/
def DateTimeField.validate (value : PyValue) : Except PyErr Unit :=
  if isDatetimeKind value then .ok () else .error .assertionError

/-- Modelled from the spec: `DateTimeField` declares no `to_python`, so it
inherits `BaseField.to_python` from `base.py`, which is not part of this
tree; per §4.2 normalization/encoding of scalars is a "representation-
preserving pass-through". -/
def DateTimeField.to_python (value : PyValue) : Except PyErr PyValue :=
  .ok value

/-- Modelled from the spec: the scalar fields declare no `to_mongo`, so they
inherit `BaseField.to_mongo` from `base.py`, which is not part of this tree;
per §4.2 "`to_storage` is identity for all scalar kinds ...
representation-preserving pass-through". -/
def BaseField.to_mongo (value : PyValue) : PyValue :=
  value

/-! ## `ListField` (`fields.py` lines 140-178)

A `ListField` wraps exactly one inner field (`self.field`), used by
`validate` only through the duck-typed call `self.field.validate(item)`; the
wrapped field is therefore represented by its `validate` behaviour. -/

/-- `ListField.validate` (lines 161-172) for a `ListField` whose wrapped
inner field has the given `validate` behaviour.  Rejects non-sequences with
the "Only lists and tuples" error; otherwise runs the inner field's
`validate` on every element inside a bare `try/except` that replaces ANY
element failure (raising at the first failing element) with the one generic
message — the originating element's position and error are not propagated. -/
def ListField.validate (inner_validate : PyValue → Except PyErr Unit)
    (value : PyValue) : Except PyErr Unit :=
  match value with
  | .list items =>
      if items.all (fun item =>
          match inner_validate item with
          | .ok _ => true
          | .error _ => false) then
        .ok ()
      else
        .error (.validationError
          "All items in a list field must be of the specified type")
  | _ =>
      .error (.validationError
        "Only lists and tuples may be used in a list field")

/-! ## `ReferenceField` (`fields.py` lines 181-236)

External collaborator types: `pymongo.objectid.ObjectId` (the opaque binary
identifier), `pymongo.dbref.DBRef` (the reference token pairing a collection
name with an identifier), the stored mapping (`son`) returned by
`_get_db().dereference`, and the target `Document` type with its
`_from_son` constructor and `id` attribute. -/

/-- `pymongo.objectid.ObjectId`: an opaque binary identifier.  The
constructor `ObjectId(string)` is modelled by `ObjectId.ofText` (its
happy path; malformed-string rejection belongs to pymongo, not this
layer). -/
structure ObjectId where
  ofText ::
  raw : String
deriving DecidableEq, Repr

/-- The identifier slot of a reference token: either an opaque binary
`ObjectId` or plain text.  The storage wire format distinguishes the two
kinds (§6). -/
inductive RefId where
  | oid (o : ObjectId)
  | text (s : String)
deriving DecidableEq, Repr

/-- `pymongo.dbref.DBRef(collection, id)`: a reference token. -/
structure DBRef where
  collection : String
  id : RefId
deriving DecidableEq, Repr

/-- A stored mapping (the document returned by a point lookup), opaque to
this layer: it is only passed on to `_from_son`. -/
structure Son where
  fields : List (String × String)
deriving DecidableEq, Repr

/-- Modelled from the spec: the target `Document` type lives in
`document.py`, outside this tree.  Per §6 it exposes an identifier
attribute (`document.id`, read by `to_mongo`) and the
build-from-stored-mapping constructor `_from_son`. -/
structure Document where
  id : Option RefId
  loaded : Option Son
deriving DecidableEq, Repr

/-- Modelled from the spec: `Document._from_son` — "an operation taking a
keyed mapping (the storage representation) and returning a fully
constructed instance" (§6). -/
def Document._from_son (son : Son) : Document :=
  { id := Option.none, loaded := Option.some son }

/-- What a document instance's reference-typed value slot
(`instance._data[self.name]`) can hold: a `DBRef` token, a materialized
target-document instance, or any other Python value (which the descriptor
passes through untouched). -/
inductive RefSlot where
  | dbref (r : DBRef)
  | doc (d : Document)
  | other (v : PyValue)

/-- The observable outcome of one attribute read through
`ReferenceField.__get__`: the value returned to the caller, the slot
contents afterwards, and how many storage lookups (`dereference` calls)
the read issued. -/
structure GetResult where
  result : Option RefSlot
  slot : Option RefSlot
  lookups : Nat

/-- `ReferenceField.__get__` (lines 194-209), for one document instance.
`db` is the active storage handle's `dereference`, returning the stored
mapping for a token or nothing.  The slot is `instance._data.get(self.name)`.
Per the source: if the slot holds a `DBRef`, dereference it (one lookup);
only when a mapping comes back is the slot overwritten with
`document_type._from_son(...)`.  The returned value is
`super(ReferenceField, self).__get__(instance, owner)` — modelled from the
spec, since `BaseField.__get__` lives in `base.py` outside this tree: per
§2 "a document instance holds a mapping from field name to current value"
and reading yields that current value, so the base read returns the slot's
contents after the branch above ran. -/
def ReferenceField.get (db : DBRef → Option Son) (slot : Option RefSlot) :
    GetResult :=
  match slot with
  | Option.some (.dbref r) =>
      match db r with
      | Option.some son =>
          let d := Document._from_son son
          { result := Option.some (.doc d)
            slot := Option.some (.doc d)
            lookups := 1 }
      | Option.none =>
          { result := Option.some (.dbref r)
            slot := Option.some (.dbref r)
            lookups := 1 }
  | s => { result := s, slot := s, lookups := 0 }

/-- The input to `ReferenceField.to_mongo`: either a bare identifier
(`isinstance(document, (str, unicode, ObjectId))`) or a target-document
instance. -/
inductive RefInput where
  | ident (i : RefId)
  | doc (d : Document)

/-- The conversion at lines 222-224: `if not isinstance(id_, ObjectId):
id_ = ObjectId(id_)`. -/
def asObjectId (i : RefId) : ObjectId :=
  match i with
  | .oid o => o
  | .text s => ObjectId.ofText s

/-- `ReferenceField.to_mongo` (lines 211-227).  `collection` is the target
type's declared storage-collection name
(`self.document_type._meta['collection']`, an external attribute of the
target type, §6). -/
def ReferenceField.to_mongo (collection : String) (document : RefInput) :
    Except PyErr DBRef :=
  match document with
  | .ident i =>
      .ok { collection := collection, id := .oid (asObjectId i) }
  | .doc d =>
      match d.id with
      | Option.none =>
          .error (.validationError
            "You can only reference documents once they have been saved to the database")
      | Option.some i =>
          .ok { collection := collection, id := .oid (asObjectId i) }

/-! ## Concrete instances used by witnesses and counterexamples -/

/-- An unconstrained integer field, `IntField()`. -/
def intField0 : IntField :=
  { min_value := Option.none, max_value := Option.none }

/-- An unconstrained string field, `StringField()`. -/
def stringField0 : StringField :=
  { regex := Option.none, max_length := Option.none }

/-- A concrete reference token. -/
def r0 : DBRef :=
  { collection := "authors", id := .oid (ObjectId.ofText "a1") }

/-- A storage handle that resolves nothing (every token is dangling). -/
def dbEmpty : DBRef → Option Son :=
  fun _ => Option.none

/-- A concrete stored mapping. -/
def son0 : Son :=
  { fields := [("name", "A")] }

/-- A storage handle that resolves every token to `son0`. -/
def dbOne : DBRef → Option Son :=
  fun _ => Option.some son0

/-- A concrete start-anchored pattern predicate: matches strings beginning
with the character h (like `re.compile("h").match`). -/
def matchLeadingH (s : String) : Bool :=
  match s.data with
  | 'h' :: _ => true
  | _ => false

/-! ## Claims -/

/-- C1: the claim says `ListField.validate` fails with an aggregate error
preserving, per failing element, its position and underlying error.  The
code (lines 168-172) instead wraps the per-element loop in a bare
`try/except` and raises one fixed generic `ValidationError`: on
`[1, "x", 3]` (inner element at position 1 fails) and on `["x", 1]` (inner
element at position 0 fails) it produces the *identical* error value, so
the failing element's position and the underlying per-element error are
erased. -/
theorem C1_listfield_collapses_element_errors :
    ListField.validate (IntField.validate intField0)
        (.list [.int 1, .str "x", .int 3]) =
      .error (.validationError
        "All items in a list field must be of the specified type") ∧
    ListField.validate (IntField.validate intField0)
        (.list [.str "x", .int 1]) =
      .error (.validationError
        "All items in a list field must be of the specified type") :=
  ⟨rfl, rfl⟩

/-- C6: `ReferenceField.to_mongo` on a target-document instance without an
identifier fails with the unsaved-reference error; on an instance with an
identifier it returns a token pairing the target type's declared collection
name with that identifier (normalized to `ObjectId`). -/
theorem C6_to_mongo_unsaved_vs_saved :
    (∀ (c : String) (ld : Option Son),
      ReferenceField.to_mongo c (.doc { id := Option.none, loaded := ld }) =
        .error (.validationError
          "You can only reference documents once they have been saved to the database")) ∧
    (∀ (c : String) (i : RefId) (ld : Option Son),
      ReferenceField.to_mongo c (.doc { id := Option.some i, loaded := ld }) =
        .ok { collection := c, id := .oid (asObjectId i) }) :=
  ⟨fun _ _ => rfl, fun _ _ _ => rfl⟩

/-- C10: every reference token `ReferenceField.to_mongo` returns carries an
`ObjectId` identifier — a text identifier, whether passed bare or read from
the document instance, is converted by `asObjectId` before the token is
constructed, so no token pairs the collection name with plain text. -/
theorem C10_token_identifier_is_objectid (c : String) (inp : RefInput)
    (ref : DBRef) (h : ReferenceField.to_mongo c inp = .ok ref) :
    ∃ o : ObjectId, ref.id = RefId.oid o := by
  cases inp with
  | ident i =>
      refine ⟨asObjectId i, ?_⟩
      simp only [ReferenceField.to_mongo] at h
      cases h
      rfl
  | doc d =>
      cases hid : d.id with
      | none =>
          simp only [ReferenceField.to_mongo, hid] at h
          exact Except.noConfusion h
      | some i =>
          refine ⟨asObjectId i, ?_⟩
          simp only [ReferenceField.to_mongo, hid] at h
          cases h
          rfl

/-- Witness for C10 at a concrete input: a bare text identifier produces a
token whose identifier is the `ObjectId` built from that text. -/
theorem C10_witness :
    ReferenceField.to_mongo "authors" (.ident (.text "a1")) =
      .ok { collection := "authors", id := .oid (ObjectId.ofText "a1") } ∧
    ∃ o : ObjectId,
      ({ collection := "authors", id := .oid (ObjectId.ofText "a1") } : DBRef).id =
        RefId.oid o :=
  ⟨rfl, C10_token_identifier_is_objectid "authors" (.ident (.text "a1")) _ rfl⟩

/-- C4 counterexample: the claim says `to_python` never raises, for
arbitrary input; but `IntField.to_python` is `int(value)`, which raises
`ValueError` on the non-numeric string `"abc"`. -/
theorem C4_counterexample_int_to_python_raises :
    IntField.to_python intField0 (.str "abc") = .error .valueError :=
  rfl

/-- C4 (amended): `to_python` is a best-effort coercion — total for the
text and boolean fields, the identity for the timestamp field, and
succeeding on every in-kind input for the integer and floating-point
fields — but NOT total for arbitrary input: the numeric coercions raise on
inputs they cannot coerce (e.g. non-numeric text).  Strict checking is
deferred to `validate`. -/
theorem C4_amended_to_python_best_effort :
    (∀ (f : StringField) (v : PyValue),
      ∃ s, StringField.to_python f v = .ok (.str s)) ∧
    (∀ v : PyValue, ∃ b, BooleanField.to_python v = .ok (.bool b)) ∧
    (∀ v : PyValue, DateTimeField.to_python v = .ok v) ∧
    (∀ (f : IntField) (n : Int), IntField.to_python f (.int n) = .ok (.int n)) ∧
    (∀ (f : FloatField) (q : ℚ),
      FloatField.to_python f (.float q) = .ok (.float q)) ∧
    (∃ (f : IntField) (v : PyValue) (e : PyErr),
      IntField.to_python f v = .error e) ∧
    (∃ (f : FloatField) (v : PyValue) (e : PyErr),
      FloatField.to_python f v = .error e) :=
  ⟨fun _ v => ⟨pyUnicode v, rfl⟩,
   fun v => ⟨pyBool v, rfl⟩,
   fun _ => rfl,
   fun _ _ => rfl,
   fun _ _ => rfl,
   ⟨intField0, .none, .typeError, rfl⟩,
   ⟨{ min_value := Option.none, max_value := Option.none }, .none, .typeError, rfl⟩⟩

/-- C7: for a text field with a configured max length and pattern,
`validate` accepts a string iff its length is at most the max length and
the pattern matches at its start; a too-long string is rejected with the
"too long" error even when the pattern also fails (length is checked
first); a string within the length bound whose start does not match is
rejected with the pattern error.  With only one constraint configured, the
other is not checked. -/
theorem C7_string_validate_length_then_pattern
    (m : Nat) (p : String → Bool) (s : String) :
    (StringField.validate { regex := Option.some p, max_length := Option.some m }
        (.str s) = .ok () ↔ (s.length ≤ m ∧ p s = true)) ∧
    (s.length > m →
      StringField.validate { regex := Option.some p, max_length := Option.some m }
          (.str s) =
        .error (.validationError "String value is too long")) ∧
    (s.length ≤ m → p s = false →
      StringField.validate { regex := Option.some p, max_length := Option.some m }
          (.str s) =
        .error (.validationError "String value did not match validation regex")) ∧
    (StringField.validate { regex := Option.none, max_length := Option.some m }
        (.str s) = .ok () ↔ s.length ≤ m) ∧
    (StringField.validate { regex := Option.some p, max_length := Option.none }
        (.str s) = .ok () ↔ p s = true) := by
  refine ⟨?_, ?_, ?_, ?_, ?_⟩ <;>
    simp only [StringField.validate] <;>
    split_ifs with h1 h2 <;>
    simp_all

/-- Witness for C7: with max length 5 and the pattern "starts with h",
`validate("hello")` succeeds and `validate("hello!")` fails with the
"too long" error. -/
theorem C7_witness :
    StringField.validate
        { regex := Option.some matchLeadingH,
          max_length := Option.some 5 } (.str "hello") = .ok () ∧
    StringField.validate
        { regex := Option.some matchLeadingH,
          max_length := Option.some 5 } (.str "hello!") =
      .error (.validationError "String value is too long") :=
  ⟨(C7_string_validate_length_then_pattern 5 matchLeadingH
      "hello").1.mpr ⟨by decide, by decide⟩,
   (C7_string_validate_length_then_pattern 5 matchLeadingH
      "hello!").2.1 (by decide)⟩

/-- C8: for an integer field and a floating-point field with configured
min/max bounds, `validate` accepts exactly the in-kind values between the
bounds inclusively (for the integer field over every Python value, with
`bool` counting as int-kind as in Python), and hence accepts values equal
to either bound and rejects values strictly outside. -/
theorem C8_numeric_bounds_inclusive :
    (∀ (mn mx : Int) (v : PyValue),
      IntField.validate { min_value := Option.some mn, max_value := Option.some mx }
          v = .ok ()
        ↔ (isIntKind v = true ∧ mn ≤ intVal v ∧ intVal v ≤ mx)) ∧
    (∀ (mn mx q : ℚ),
      FloatField.validate { min_value := Option.some mn, max_value := Option.some mx }
          (.float q) = .ok ()
        ↔ (mn ≤ q ∧ q ≤ mx)) := by
  constructor
  · intro mn mx v
    cases v <;>
      simp only [IntField.validate, isIntKind, intVal] <;>
      split_ifs <;> simp_all
  · intro mn mx q
    simp only [FloatField.validate]
    split_ifs <;> simp_all

/-- C9: for every scalar field, `validate` fails with Python's
`AssertionError` exactly on values failing the field's `isinstance` check
(with `bool` counting as int-kind, as in Python), while constraint
violations raise `ValidationError` — a different failure kind, so callers
see two disjoint error taxonomies. -/
theorem C9_type_mismatch_is_assertion_error :
    (∀ (f : StringField) (v : PyValue),
      (StringField.validate f v = .error .assertionError ↔
        isStrKind v = false)) ∧
    (∀ (f : IntField) (v : PyValue),
      (IntField.validate f v = .error .assertionError ↔
        isIntKind v = false)) ∧
    (∀ (f : FloatField) (v : PyValue),
      (FloatField.validate f v = .error .assertionError ↔
        isFloatKind v = false)) ∧
    (∀ v : PyValue,
      (BooleanField.validate v = .error .assertionError ↔
        isBoolKind v = false)) ∧
    (∀ v : PyValue,
      (DateTimeField.validate v = .error .assertionError ↔
        isDatetimeKind v = false)) ∧
    (∀ msg : String, (PyErr.assertionError : PyErr) ≠ .validationError msg) := by
  refine ⟨?_, ?_, ?_, ?_, ?_, ?_⟩
  · intro f v
    cases v <;> simp only [StringField.validate, isStrKind]
    all_goals split_ifs <;> simp_all
  · intro f v
    cases v <;> simp only [IntField.validate, isIntKind, intVal] <;>
      split_ifs <;> simp_all
  · intro f v
    cases v <;> simp only [FloatField.validate, isFloatKind]
    all_goals split_ifs <;> simp_all
  · intro v
    cases v <;> simp [BooleanField.validate, isBoolKind]
  · intro v
    cases v <;> simp [DateTimeField.validate, isDatetimeKind]
  · intro msg
    simp

/-- C2 counterexample: with a storage handle that cannot resolve the token,
reading the attribute does NOT yield an absent value as the claim states —
`super().__get__` returns the slot's contents, which is still the
unresolved `DBRef` token. -/
theorem C2_counterexample_read_returns_token :
    (ReferenceField.get dbEmpty (Option.some (.dbref r0))).result =
      Option.some (.dbref r0) ∧
    Option.some (RefSlot.dbref r0) ≠ (Option.none : Option RefSlot) :=
  ⟨rfl, by simp⟩

/-- C2 (amended): when the point lookup returns nothing, the read returns
the unresolved token itself (not an absent value), the slot is left holding
the token, and resolution is attempted again on every subsequent read (the
next read issues a lookup again) rather than the failure being cached. -/
theorem C2_amended_dangling_reference_retried (db : DBRef → Option Son)
    (r : DBRef) (h : db r = Option.none) :
    (ReferenceField.get db (Option.some (.dbref r))).result =
      Option.some (.dbref r) ∧
    (ReferenceField.get db (Option.some (.dbref r))).slot =
      Option.some (.dbref r) ∧
    (ReferenceField.get db (Option.some (.dbref r))).lookups = 1 ∧
    (ReferenceField.get db
        ((ReferenceField.get db (Option.some (.dbref r))).slot)).lookups = 1 := by
  simp [ReferenceField.get, h]

/-- Witness for the amended C2 at a concrete dangling token: the slot keeps
the token and the second read issues a storage lookup again. -/
theorem C2_witness :
    dbEmpty r0 = Option.none ∧
    (ReferenceField.get dbEmpty (Option.some (.dbref r0))).slot =
      Option.some (.dbref r0) ∧
    (ReferenceField.get dbEmpty
        ((ReferenceField.get dbEmpty (Option.some (.dbref r0))).slot)).lookups =
      1 :=
  ⟨rfl, (C2_amended_dangling_reference_retried dbEmpty r0 rfl).2.1,
   (C2_amended_dangling_reference_retried dbEmpty r0 rfl).2.2.2⟩

/-- C3: with a resolvable token, the first read issues exactly one storage
lookup and overwrites the slot with the materialized target-document
instance built from the fetched mapping; the returned value is that
instance; a subsequent read issues no lookup, returns the same instance,
and leaves the slot unchanged (no transition back to the unresolved
state). -/
theorem C3_resolve_once_then_cached (db : DBRef → Option Son) (r : DBRef)
    (son : Son) (h : db r = Option.some son) :
    (ReferenceField.get db (Option.some (.dbref r))).lookups = 1 ∧
    (ReferenceField.get db (Option.some (.dbref r))).slot =
      Option.some (.doc (Document._from_son son)) ∧
    (ReferenceField.get db (Option.some (.dbref r))).result =
      Option.some (.doc (Document._from_son son)) ∧
    (ReferenceField.get db
        ((ReferenceField.get db (Option.some (.dbref r))).slot)).lookups = 0 ∧
    (ReferenceField.get db
        ((ReferenceField.get db (Option.some (.dbref r))).slot)).result =
      Option.some (.doc (Document._from_son son)) ∧
    (ReferenceField.get db
        ((ReferenceField.get db (Option.some (.dbref r))).slot)).slot =
      (ReferenceField.get db (Option.some (.dbref r))).slot := by
  simp [ReferenceField.get, h]

/-- Witness for C3 at a concrete resolvable token: one lookup on the first
read, none on the second, same materialized instance both times. -/
theorem C3_witness :
    dbOne r0 = Option.some son0 ∧
    (ReferenceField.get dbOne (Option.some (.dbref r0))).lookups = 1 ∧
    (ReferenceField.get dbOne
        ((ReferenceField.get dbOne (Option.some (.dbref r0))).slot)).lookups =
      0 ∧
    (ReferenceField.get dbOne
        ((ReferenceField.get dbOne (Option.some (.dbref r0))).slot)).result =
      Option.some (.doc (Document._from_son son0)) :=
  ⟨rfl, (C3_resolve_once_then_cached dbOne r0 son0 rfl).1,
   (C3_resolve_once_then_cached dbOne r0 son0 rfl).2.2.2.1,
   (C3_resolve_once_then_cached dbOne r0 son0 rfl).2.2.2.2.1⟩

/-- C5: for every scalar field and every value `v` its `validate` accepts,
decoding the storage encoding gives a value observably equivalent to `v`
under Python `==`: `to_python(to_mongo(v)) == v`.  (For the integer field,
a `bool` value is in-kind and round-trips to the Python-equal `0`/`1`.) -/
theorem C5_scalar_roundtrip (v : PyValue) :
    (∀ f : StringField, StringField.validate f v = .ok () →
      ∃ w, StringField.to_python f (BaseField.to_mongo v) = .ok w ∧
        pyEq w v = true) ∧
    (∀ f : IntField, IntField.validate f v = .ok () →
      ∃ w, IntField.to_python f (BaseField.to_mongo v) = .ok w ∧
        pyEq w v = true) ∧
    (∀ f : FloatField, FloatField.validate f v = .ok () →
      ∃ w, FloatField.to_python f (BaseField.to_mongo v) = .ok w ∧
        pyEq w v = true) ∧
    (BooleanField.validate v = .ok () →
      ∃ w, BooleanField.to_python (BaseField.to_mongo v) = .ok w ∧
        pyEq w v = true) ∧
    (DateTimeField.validate v = .ok () →
      ∃ w, DateTimeField.to_python (BaseField.to_mongo v) = .ok w ∧
        pyEq w v = true) := by
  refine ⟨?_, ?_, ?_, ?_, ?_⟩
  · intro f h
    cases v
    case str s => exact ⟨.str s, rfl, by simp [pyEq]⟩
    all_goals exact absurd h (by simp [StringField.validate])
  · intro f h
    cases v
    case int n => exact ⟨.int n, rfl, by simp [pyEq, asRat?]⟩
    case bool b =>
      exact ⟨.int (if b then 1 else 0), rfl, by cases b <;> simp [pyEq, asRat?]⟩
    all_goals exact absurd h (by simp [IntField.validate, isIntKind])
  · intro f h
    cases v
    case float q => exact ⟨.float q, rfl, by simp [pyEq, asRat?]⟩
    all_goals exact absurd h (by simp [FloatField.validate])
  · intro h
    cases v
    case bool b => exact ⟨.bool b, rfl, by cases b <;> simp [pyEq, asRat?]⟩
    all_goals exact absurd h (by simp [BooleanField.validate, isBoolKind])
  · intro h
    cases v
    case datetime t => exact ⟨.datetime t, rfl, by simp [pyEq]⟩
    all_goals exact absurd h (by simp [DateTimeField.validate, isDatetimeKind])

/-- Witness for C5 at concrete accepted values: a string and an integer
round-trip through the storage encoding to Python-equal values. -/
theorem C5_witness :
    (StringField.validate stringField0 (.str "ok") = .ok () ∧
      ∃ w, StringField.to_python stringField0 (BaseField.to_mongo (.str "ok")) =
          .ok w ∧ pyEq w (.str "ok") = true) ∧
    (IntField.validate intField0 (.int 7) = .ok () ∧
      ∃ w, IntField.to_python intField0 (BaseField.to_mongo (.int 7)) =
          .ok w ∧ pyEq w (.int 7) = true) :=
  ⟨⟨rfl, (C5_scalar_roundtrip (.str "ok")).1 stringField0 rfl⟩,
   ⟨rfl, (C5_scalar_roundtrip (.int 7)).2.1 intField0 rfl⟩⟩
